import Mathlib

set_option maxRecDepth 8000

/-!
Verification of the SIH_WATER_AI backend core: model selection and prediction
dispatch (`backend/app/ml/model_manager.py`), quality-score derivation
(`backend/app/services/ml_service.py`) and the treatment optimizers
(`backend/app/services/optimizers.py`).

The Python code is shallowly embedded: numeric values are modelled as
rationals (`ℚ`), Python dicts of features as association lists
`List (String × ℚ)` with first-match lookup, and fallible calls into the
opaque fitted scikit-learn chain as `Except`-valued functions.  Python's
`round(x, n)` rounds half to even; it is modelled exactly by `rne` below.
-/

/-- Round a rational to the nearest integer, ties to even: the semantics of
Python's builtin `round`. -/
def rne (x : ℚ) : ℤ :=
  if Int.fract x < 1/2 then ⌊x⌋
  else if 1/2 < Int.fract x then ⌊x⌋ + 1
  else if ⌊x⌋ % 2 = 0 then ⌊x⌋ else ⌊x⌋ + 1

/-- Python's `round(x, 2)`: round to the nearest multiple of 1/100, ties to
even. -/
def round2 (x : ℚ) : ℚ := (rne (100 * x) : ℚ) / 100

/-- Python's `round(x, 0)`: round to the nearest integer, ties to even. -/
def round0 (x : ℚ) : ℚ := (rne x : ℚ)

lemma eq_floor_of_fract_eq_zero {x : ℚ} (h : Int.fract x = 0) :
    x = (⌊x⌋ : ℚ) := by
  unfold Int.fract at h
  linarith

lemma rne_intCast (k : ℤ) : rne (k : ℚ) = k := by
  have h1 : Int.fract (k : ℚ) = 0 := Int.fract_intCast k
  have h2 : ⌊(k : ℚ)⌋ = k := Int.floor_intCast k
  rw [rne, h1, h2, if_pos (by norm_num)]

lemma floor_neg_of_fract_ne_zero {x : ℚ} (h : Int.fract x ≠ 0) :
    ⌊-x⌋ = -⌊x⌋ - 1 := by
  have h1 : (⌊x⌋ : ℚ) < x := by
    rcases lt_or_eq_of_le (Int.floor_le x) with h' | h'
    · exact h'
    · exact absurd (by unfold Int.fract; linarith) h
  have h2 : x < (⌊x⌋ : ℚ) + 1 := Int.lt_floor_add_one x
  rw [Int.floor_eq_iff]
  constructor
  · push_cast; linarith
  · push_cast; linarith

lemma rne_neg (x : ℚ) : rne (-x) = -rne x := by
  by_cases h : Int.fract x = 0
  · have hx : x = (⌊x⌋ : ℚ) := eq_floor_of_fract_eq_zero h
    rw [hx, show -((⌊x⌋ : ℚ)) = ((-⌊x⌋ : ℤ) : ℚ) by push_cast; ring]
    rw [rne_intCast, rne_intCast]
  · have hf : Int.fract (-x) = 1 - Int.fract x := Int.fract_neg h
    have hfl : ⌊-x⌋ = -⌊x⌋ - 1 := floor_neg_of_fract_ne_zero h
    have hf0 : 0 ≤ Int.fract x := Int.fract_nonneg x
    have hf1 : Int.fract x < 1 := Int.fract_lt_one x
    rcases lt_trichotomy (Int.fract x) (1/2) with hlt | heq | hgt
    · have hgt' : 1/2 < Int.fract (-x) := by rw [hf]; linarith
      have hlt0 : 0 < Int.fract x := lt_of_le_of_ne hf0 (Ne.symm h)
      have hn : ¬ Int.fract (-x) < 1/2 := by linarith
      rw [rne, rne, if_neg hn, if_pos hgt', if_pos hlt, hfl]
      ring
    · have heq' : Int.fract (-x) = 1/2 := by rw [hf, heq]; norm_num
      have hn1 : ¬ Int.fract (-x) < 1/2 := by rw [heq']; norm_num
      have hn2 : ¬ (1/2 : ℚ) < Int.fract (-x) := by rw [heq']; exact lt_irrefl _
      have hn3 : ¬ Int.fract x < 1/2 := by rw [heq]; exact lt_irrefl _
      have hn4 : ¬ (1/2 : ℚ) < Int.fract x := by rw [heq]; exact lt_irrefl _
      rw [rne, rne, if_neg hn1, if_neg hn2, if_neg hn3, if_neg hn4, hfl]
      rcases Int.emod_two_eq_zero_or_one ⌊x⌋ with he | ho
      · have hno : ¬ (-⌊x⌋ - 1) % 2 = 0 := by omega
        rw [if_pos he, if_neg hno]
        ring
      · have hye : (-⌊x⌋ - 1) % 2 = 0 := by omega
        have hne : ¬ ⌊x⌋ % 2 = 0 := by omega
        rw [if_neg hne, if_pos hye]
        ring
    · have hlt' : Int.fract (-x) < 1/2 := by rw [hf]; linarith
      have hn1 : ¬ Int.fract x < 1/2 := by linarith
      rw [rne, rne, if_pos hlt', hfl, if_neg hn1, if_pos hgt]
      ring

lemma rne_even_int_add (k : ℤ) (x : ℚ) (hk : k % 2 = 0) :
    rne ((k : ℚ) + x) = k + rne x := by
  have hf : Int.fract ((k : ℚ) + x) = Int.fract x := Int.fract_int_add k x
  have hfl : ⌊(k : ℚ) + x⌋ = k + ⌊x⌋ := Int.floor_int_add k x
  rw [rne, rne, hf, hfl]
  rcases lt_trichotomy (Int.fract x) (1/2) with hlt | heq | hgt
  · rw [if_pos hlt, if_pos hlt]
  · have h1 : ¬ Int.fract x < 1/2 := by rw [heq]; exact lt_irrefl _
    have h2 : ¬ (1/2 : ℚ) < Int.fract x := by rw [heq]; exact lt_irrefl _
    rw [if_neg h1, if_neg h1, if_neg h2, if_neg h2]
    rcases Int.emod_two_eq_zero_or_one ⌊x⌋ with he | ho
    · have hke : (k + ⌊x⌋) % 2 = 0 := by omega
      rw [if_pos he, if_pos hke]
    · have hko : ¬ (k + ⌊x⌋) % 2 = 0 := by omega
      have ho' : ¬ ⌊x⌋ % 2 = 0 := by omega
      rw [if_neg ho', if_neg hko]
      ring
  · have h1 : ¬ Int.fract x < 1/2 := by linarith
    rw [if_neg h1, if_neg h1, if_pos hgt, if_pos hgt]
    ring

/-- Key identity: Python `round(q, 2) + round(100 - q, 2) = 100` exactly, for
every rational `q`, thanks to the symmetry of round-half-to-even. -/
lemma round2_add_compl (x : ℚ) : round2 x + round2 (100 - x) = 100 := by
  have key : rne (100 * (100 - x)) = 10000 - rne (100 * x) := by
    have h1 : (100 : ℚ) * (100 - x) = ((10000 : ℤ) : ℚ) + (-(100 * x)) := by
      push_cast; ring
    rw [h1, rne_even_int_add 10000 (-(100 * x)) (by norm_num), rne_neg]
    ring
  unfold round2
  rw [key]
  push_cast
  ring

lemma rne_nonneg {x : ℚ} (h : 0 ≤ x) : 0 ≤ rne x := by
  have hfl : 0 ≤ ⌊x⌋ := Int.floor_nonneg.mpr h
  unfold rne
  split
  · exact hfl
  · split
    · omega
    · split
      · exact hfl
      · omega

lemma rne_le_of_le {x : ℚ} {B : ℤ} (h : x ≤ (B : ℚ)) : rne x ≤ B := by
  have hfl : ⌊x⌋ ≤ B := by
    have h' := Int.floor_le_floor h
    rwa [Int.floor_intCast] at h'
  have hsucc : ¬ Int.fract x < 1/2 → ⌊x⌋ + 1 ≤ B := by
    intro hge
    have hne : (⌊x⌋ : ℚ) < x := by
      rcases lt_or_eq_of_le (Int.floor_le x) with h' | h'
      · exact h'
      · exact absurd (by unfold Int.fract; rw [← h']; norm_num) hge
    by_contra hcon
    have hb : ⌊x⌋ = B := by omega
    rw [hb] at hne
    linarith
  unfold rne
  split
  · exact hfl
  · split
    · exact hsucc (by assumption)
    · split
      · exact hfl
      · exact hsucc (by assumption)

lemma round2_nonneg {x : ℚ} (h : 0 ≤ x) : 0 ≤ round2 x := by
  unfold round2
  have h' : (0 : ℤ) ≤ rne (100 * x) := rne_nonneg (by linarith)
  have h2 : (0 : ℚ) ≤ (rne (100 * x) : ℚ) := by exact_mod_cast h'
  linarith

lemma round2_le_of_le {x : ℚ} {B : ℤ} (h : x ≤ (B : ℚ)) :
    round2 x ≤ (B : ℚ) := by
  unfold round2
  have h1 : rne (100 * x) ≤ (100 * B : ℤ) := rne_le_of_le (by push_cast; linarith)
  have h2 : ((rne (100 * x)) : ℚ) ≤ ((100 * B : ℤ) : ℚ) := by exact_mod_cast h1
  push_cast at h2
  linarith

lemma round2_ge_of_ge {x : ℚ} {B : ℤ} (h : (B : ℚ) ≤ x) :
    (B : ℚ) ≤ round2 x := by
  unfold round2
  have h1 : -rne (100 * x) ≤ (-(100 * B) : ℤ) := by
    rw [← rne_neg]
    exact rne_le_of_le (by push_cast; linarith)
  have h2 : (100 * B : ℤ) ≤ rne (100 * x) := by omega
  have h3 : ((100 * B : ℤ) : ℚ) ≤ ((rne (100 * x)) : ℚ) := by exact_mod_cast h2
  push_cast at h3
  linarith

lemma round2_le_hundred {x : ℚ} (h : x ≤ 100) : round2 x ≤ 100 := by
  have h' := round2_le_of_le (B := 100) (by push_cast; linarith)
  simpa using h'

/-!
## Substring containment

Models Python's `sub in s.lower()` (used by the quality-derivation layer to
dispatch on the dataset key).  Strings are handled as lists of characters.
-/

/-- Predicate `matchesAt needle hay`: holds when `needle` starts `hay` (character-wise). -/
def matchesAt : List Char → List Char → Bool
  | [], _ => true
  | _ :: _, [] => false
  | a :: as, b :: bs => a == b && matchesAt as bs

/-- Predicate `containsSub needle hay`: holds when `needle` occurs contiguously in
`hay`: Python's `needle in hay`. -/
def containsSub (needle : List Char) : List Char → Bool
  | [] => matchesAt needle []
  | c :: t => matchesAt needle (c :: t) || containsSub needle t

/-- Python's `sub in name.lower()`. -/
def strContainsLower (name sub : String) : Bool :=
  containsSub sub.data (name.data.map Char.toLower)

/-!
## Model artifacts and the model manager (`backend/app/ml/model_manager.py`)

A `UnifiedMLPipeline` (from `backend/app/ml/pipeline.py`) carries the model
kind, the stored feature-column list (`None` when the metadata sidecar was
missing at load time) and the opaque fitted scikit-learn chain.  The chain is
modelled by `run` (`self.pipeline.predict`, composed with the `[0]` scalar
extraction) and `run_proba` (`self.pipeline.predict_proba`), which may fail
with an opaque error code, modelling a raised exception.

`ModelManager.models` is the manager's insertion-ordered Python dict
`self.models`, modelled as an association list in iteration order.
-/

structure UnifiedMLPipeline where
  model_type : String
  feature_columns : Option (List String)
  run : List ℚ → Except Nat ℚ
  run_proba : List ℚ → Except Nat (List ℚ)

structure ModelManager where
  models : List (String × UnifiedMLPipeline)

/-- Failure modes of the manager operations.  `pipelineError` wraps an
exception escaping the opaque fitted chain; `noFeatureColumns` models the
`TypeError` raised by `set(None)` when a loaded artifact has no stored
feature list. -/
inductive MMError where
  | modelNotFound : MMError
  | noFeatureColumns : MMError
  | pipelineError : Nat → MMError
  | noModelsAvailable : MMError
deriving DecidableEq

/-- The dictionary returned by `ModelManager.predict`. -/
structure PredictResult where
  prediction : ℚ
  model_name : String
  features_used : List String
  probabilities : Option (List ℚ)
  confidence : Option ℚ
deriving DecidableEq

/-- The single-row input frame handed to the fitted chain: the request
features re-ordered by the artifact's stored feature list, each feature
missing from the request filled with the fixed default `0.0`
(`feature_df[feat] = 0.0` followed by `feature_df[pipeline.feature_columns]`).
-/
def buildRow (cols : List String) (features : List (String × ℚ)) : List ℚ :=
  cols.map (fun c => (List.lookup c features).getD 0)

/-- Embeds `ModelManager.predict` (model_manager.py lines 108-156): look up the
artifact, build the default-filled row, run the chain; for classifiers also
fetch the probability vector and `confidence = np.max(probabilities)`, with
any failure there swallowed (`except: pass`) — `np.max` of the empty vector
raises after `probabilities` is already set, hence `List.max?`. -/
def ModelManager.predict (mgr : ModelManager) (dataset_name : String)
    (features : List (String × ℚ)) : Except MMError PredictResult :=
  match List.lookup dataset_name mgr.models with
  | none => .error .modelNotFound
  | some pipeline =>
    match pipeline.feature_columns with
    | none => .error .noFeatureColumns
    | some cols =>
      let row := buildRow cols features
      match pipeline.run row with
      | .error e => .error (.pipelineError e)
      | .ok pred =>
        if pipeline.model_type = "classifier" then
          match pipeline.run_proba row with
          | .ok probs =>
            .ok { prediction := pred, model_name := dataset_name,
                  features_used := cols, probabilities := some probs,
                  confidence := probs.max? }
          | .error _ =>
            .ok { prediction := pred, model_name := dataset_name,
                  features_used := cols, probabilities := none,
                  confidence := none }
        else
          .ok { prediction := pred, model_name := dataset_name,
                features_used := cols, probabilities := none,
                confidence := none }

/-- The per-artifact results of the `ensemble_predict` try/except loop that
did not raise, in model order. -/
def successResults (mgr : ModelManager) (features : List (String × ℚ)) :
    List PredictResult :=
  (mgr.models.map (fun np => ModelManager.predict mgr np.1 features)).filterMap
    Except.toOption

/-- The `individual_predictions` dict comprehension in the `return` of
`ensemble_predict`: it re-runs `self.predict` for EVERY loaded model, outside
any try/except, so the first artifact that raises propagates its error. -/
def individualPredictions (mgr : ModelManager) (features : List (String × ℚ)) :
    List (String × UnifiedMLPipeline) → Except MMError (List (String × ℚ))
  | [] => .ok []
  | np :: rest =>
    match ModelManager.predict mgr np.1 features with
    | .error e => .error e
    | .ok r =>
      match individualPredictions mgr features rest with
      | .error e => .error e
      | .ok tl => .ok ((np.1, r.prediction) :: tl)

structure EnsembleResult where
  prediction : ℚ
  individual_predictions : List (String × ℚ)
  weights : List ℚ
deriving DecidableEq

/-- Embeds `ModelManager.ensemble_predict` (model_manager.py lines 158-199): collect
the predictions of every artifact whose `predict` did not raise, weight by
confidence (default 0.5), raise `ValueError("No models could make
predictions")` (`noModelsAvailable`) when none succeeded, normalize the
weights (`weights / weights.sum()`) and return
`np.average(predictions, weights=normalized)` — which divides by the sum of
the given weights — together with the re-computed individual predictions. -/
def ModelManager.ensemble_predict (mgr : ModelManager)
    (features : List (String × ℚ)) : Except MMError EnsembleResult :=
  let results := successResults mgr features
  let predictions := results.map (fun r => r.prediction)
  let weights := results.map (fun r => r.confidence.getD (1/2))
  if predictions.isEmpty then .error .noModelsAvailable
  else
    let normWeights := weights.map (fun w => w / weights.sum)
    let ensemblePred :=
      ((predictions.zip normWeights).map (fun pw => pw.1 * pw.2)).sum /
        normWeights.sum
    match individualPredictions mgr features mgr.models with
    | .error e => .error e
    | .ok indiv =>
      .ok { prediction := ensemblePred, individual_predictions := indiv,
            weights := normWeights }

/-- The overlap ratio computed by `model_selector` for one artifact:
`len(set(request_keys) ∩ set(feature_columns)) / len(set(feature_columns))`,
`0` for an empty feature list. -/
def overlapFrac (features : List (String × ℚ)) (cols : List String) : ℚ :=
  let keys := (features.map Prod.fst).toFinset
  let mf := cols.toFinset
  if 0 < mf.card then ((keys ∩ mf).card : ℚ) / (mf.card : ℚ) else 0

/-- Python's `max(items, key=...)`: scan left to right, replace the current
best only on a strictly larger key, so the FIRST maximal item wins. -/
def pickBest (acc : String × ℚ) : List (String × ℚ) → String × ℚ
  | [] => acc
  | x :: xs => pickBest (if acc.2 < x.2 then x else acc) xs

/-- Embeds `ModelManager.model_selector` (model_manager.py lines 66-106): score every
artifact with a stored feature list by overlap ratio, pick the best, and
return it only when its ratio is strictly above `0.5`. -/
def ModelManager.model_selector (mgr : ModelManager)
    (features : List (String × ℚ)) : Option String :=
  let scores := mgr.models.filterMap
    (fun np => np.2.feature_columns.map (fun cols => (np.1, overlapFrac features cols)))
  match scores with
  | [] => none
  | s :: rest =>
    let best := pickBest s rest
    if 1/2 < best.2 then some best.1 else none

/-!
## Quality-score derivation (`backend/app/services/ml_service.py`)

`deriveScores` is the derivation block of `MLService.predict` (lines 74-124):
it maps the raw prediction of the chosen artifact (plus classifier
confidence) to the rounded `quality_score` / `contamination_index` pair
attached to the prediction result.  The surrounding request plumbing
(empty-feature check, `auto` handling, the TTL cache, which returns exactly
this value on a first computation) does not alter the computed pair.
-/

def deriveScores (model_type model_name : String) (prediction_value : ℚ)
    (confidence : Option ℚ) : ℚ × ℚ :=
  let qc :=
    if model_type = "classifier" then
      let base := if prediction_value = 1 then ((85 : ℚ), (15 : ℚ)) else (30, 70)
      let conf := confidence.getD (1/2)
      if 7/10 < conf then (min 100 (base.1 + 10), max 0 (base.2 - 10))
      else if conf < 1/2 then (max 0 (base.1 - 10), min 100 (base.2 + 10))
      else base
    else
      if strContainsLower model_name "dataset3" then
        let q := max 0 (min 100 prediction_value)
        (q, 100 - q)
      else if strContainsLower model_name "dataset4" then
        let q : ℚ :=
          if prediction_value < 200 then 90
          else if prediction_value < 400 then 70
          else if prediction_value < 600 then 50
          else 30
        (q, 100 - q)
      else
        let q := max 0 (min 100 (prediction_value / 200 * 100))
        (q, 100 - q)
  (round2 qc.1, round2 qc.2)

structure ServiceEnsembleResult where
  prediction : ℚ
  individual_predictions : List (String × ℚ)
  weights : List ℚ
  quality_score : ℚ
  contamination_index : ℚ
deriving DecidableEq

/-- Embeds `MLService.ensemble_predict` (ml_service.py lines 142-163): run the
manager ensemble, then attach quality metrics computed with the generic
regressor formula. -/
def MLService.ensemble_predict (mgr : ModelManager)
    (features : List (String × ℚ)) : Except MMError ServiceEnsembleResult :=
  match ModelManager.ensemble_predict mgr features with
  | .error e => .error e
  | .ok r =>
    let quality_score := max 0 (min 100 (r.prediction / 200 * 100))
    let contamination_index := 100 - quality_score
    .ok { prediction := r.prediction,
          individual_predictions := r.individual_predictions,
          weights := r.weights,
          quality_score := round2 quality_score,
          contamination_index := round2 contamination_index }

/-!
## Treatment optimizers (`backend/app/services/optimizers.py`)

Each stage optimizer is a pure function of its numeric inputs.  The
human-readable `recommendations` string lists (f-string renderings of the
same numeric values) are elided from the embedded result structures; every
numeric field and every fixed literal string field is kept.
-/

structure PrimaryResult where
  settling_time_min : ℚ
  coagulant_dose_ml : ℚ
  sludge_volume_index : ℚ
deriving DecidableEq

/-- Embeds `PrimaryTreatmentOptimizer.optimize` (optimizers.py lines 15-57). -/
def PrimaryTreatmentOptimizer.optimize (quality_score contamination_index : ℚ)
    (flow_rate_lpm : ℚ) : PrimaryResult :=
  let contamination_factor := contamination_index / 100
  let settling_time := 60 * (1 + contamination_factor * 2)
  let settling_time := max 30 (min settling_time 180)
  let dose_multiplier := 1 + (contamination_index / 100) * (3/2)
  let coagulant_dose_ml := (50 * dose_multiplier * flow_rate_lpm) / 1000
  let coagulant_dose_ml := max 20 (min coagulant_dose_ml 200)
  let svi := 80 + (contamination_index / 100) * 50
  let svi := max 50 (min svi 200)
  { settling_time_min := round2 settling_time,
    coagulant_dose_ml := round2 coagulant_dose_ml,
    sludge_volume_index := round2 svi }

structure SecondaryResult where
  aeration_time_min : ℚ
  do_target_ppm : ℚ
  blower_speed_rpm : ℚ
  sludge_age_days : ℚ
deriving DecidableEq

/-- Embeds `SecondaryTreatmentOptimizer.optimize` (optimizers.py lines 60-127). -/
def SecondaryTreatmentOptimizer.optimize (quality_score contamination_index : ℚ)
    (current_bod current_cod : ℚ) : SecondaryResult :=
  let bod_reduction_needed := max 0 (current_bod - 30)
  let cod_reduction_needed := max 0 (current_cod - 100)
  let aeration_factor := bod_reduction_needed / 200 + cod_reduction_needed / 400
  let aeration_time := 240 * (1 + aeration_factor)
  let aeration_time := max 180 (min aeration_time 480)
  let do_target := 5/2 + (contamination_index / 100) * 1
  let do_target := max 2 (min do_target 4)
  let blower_speed := 1000 * (1 + (contamination_index / 100) * (1/2))
  let blower_speed := max 800 (min blower_speed 1500)
  let sludge_age := 8 + (contamination_index / 100) * 5
  let sludge_age := max 5 (min sludge_age 15)
  { aeration_time_min := round2 aeration_time,
    do_target_ppm := round2 do_target,
    blower_speed_rpm := round0 blower_speed,
    sludge_age_days := round2 sludge_age }

structure TertiaryResult where
  filtration_rate_lpm : ℚ
  chlorine_dose_ml : ℚ
  ro_trigger : Bool
deriving DecidableEq

/-- Embeds `TertiaryTreatmentOptimizer.optimize` (optimizers.py lines 130-185). -/
def TertiaryTreatmentOptimizer.optimize (quality_score contamination_index : ℚ)
    (target_quality : String) : TertiaryResult :=
  let quality_factor := (100 - quality_score) / 100
  let filtration_rate := 10 * (1 - quality_factor * (3/10))
  let filtration_rate := max 5 (min filtration_rate 15)
  let chlorine_multiplier := 1 + (contamination_index / 100) * 1
  let chlorine_dose_ml := 2 * chlorine_multiplier
  let chlorine_dose_ml := max 1 (min chlorine_dose_ml 5)
  let ro_required :=
    target_quality == "drinking" || decide (70 < contamination_index) ||
      decide (quality_score < 50)
  { filtration_rate_lpm := round2 filtration_rate,
    chlorine_dose_ml := round2 chlorine_dose_ml,
    ro_trigger := ro_required }

structure ReuseResult where
  reuse_type : String
  recovery_percentage : ℚ
  description : String
  quality_score : ℚ
  contamination_index : ℚ
deriving DecidableEq

/-- Embeds `FinalReuseEngine.determine_reuse` (optimizers.py lines 188-234): ordered
decision cascade, first matching rule wins. -/
def FinalReuseEngine.determine_reuse (quality_score contamination_index : ℚ)
    (ro_used : Bool) : ReuseResult :=
  let rrd :=
    if ro_used = true ∧ 95 ≤ quality_score then
      (("drinking" : String), (75 : ℚ),
        ("Suitable for drinking water after RO treatment" : String))
    else if 85 ≤ quality_score ∧ contamination_index < 20 then
      ("industrial", 90, "Suitable for industrial reuse (cooling, process water)")
    else if 70 ≤ quality_score ∧ contamination_index < 40 then
      ("irrigation", 85, "Suitable for agricultural irrigation")
    else if 60 ≤ quality_score ∧ contamination_index < 60 then
      ("environmental", 95, "Suitable for environmental discharge")
    else
      ("environmental", 90, "Requires further treatment before reuse")
  { reuse_type := rrd.1, recovery_percentage := rrd.2.1, description := rrd.2.2,
    quality_score := round2 quality_score,
    contamination_index := round2 contamination_index }

structure OptimizeAllResult where
  quality_score : ℚ
  contamination_index : ℚ
  primary_treatment : PrimaryResult
  secondary_treatment : SecondaryResult
  tertiary_treatment : TertiaryResult
  final_reuse : ReuseResult
  dosing_coagulant : ℚ
  dosing_chlorine : ℚ
  expected_recovery_percentage : ℚ
deriving DecidableEq

/-- Embeds `TreatmentOptimizerEngine.optimize_all` (optimizers.py lines 237-310):
extract the recognized sensor readings with their defaults, run the four
stage optimizers in order (reuse consumes the tertiary RO flag), and
assemble the combined result (the concatenated recommendation strings are
elided, the dosing summary and expected recovery are kept). -/
def TreatmentOptimizerEngine.optimize_all (quality_score contamination_index : ℚ)
    (sensor_data : List (String × ℚ)) (target_quality : String) :
    OptimizeAllResult :=
  let flow_rate := (List.lookup "flow_rate_lpm" sensor_data).getD 1000
  let current_bod := (List.lookup "bod" sensor_data).getD 200
  let current_cod := (List.lookup "cod" sensor_data).getD 400
  let primary_results :=
    PrimaryTreatmentOptimizer.optimize quality_score contamination_index flow_rate
  let secondary_results :=
    SecondaryTreatmentOptimizer.optimize quality_score contamination_index
      current_bod current_cod
  let tertiary_results :=
    TertiaryTreatmentOptimizer.optimize quality_score contamination_index
      target_quality
  let reuse_results :=
    FinalReuseEngine.determine_reuse quality_score contamination_index
      tertiary_results.ro_trigger
  { quality_score := round2 quality_score,
    contamination_index := round2 contamination_index,
    primary_treatment := primary_results,
    secondary_treatment := secondary_results,
    tertiary_treatment := tertiary_results,
    final_reuse := reuse_results,
    dosing_coagulant := primary_results.coagulant_dose_ml,
    dosing_chlorine := tertiary_results.chlorine_dose_ml,
    expected_recovery_percentage := reuse_results.recovery_percentage }

/-!
## Evaluation lemmas for the rounding model
-/

lemma rne_eq_low {x : ℚ} (k : ℤ) (h1 : (k:ℚ) ≤ x) (h2 : x < (k:ℚ) + 1/2) :
    rne x = k := by
  have hfl : ⌊x⌋ = k := Int.floor_eq_iff.mpr ⟨h1, by push_cast; linarith⟩
  have hfr : Int.fract x < 1/2 := by
    unfold Int.fract
    rw [hfl]
    linarith
  rw [rne, if_pos hfr, hfl]

lemma round2_eq_low {x : ℚ} (k : ℤ) (h1 : (k:ℚ) ≤ 100 * x)
    (h2 : 100 * x < (k:ℚ) + 1/2) : round2 x = (k:ℚ) / 100 := by
  rw [round2, rne_eq_low k h1 h2]

/-- Bounds and the exact-sum identity shared by every `(q, 100 - q)` score
pair produced by the derivation layer. -/
lemma scores_bounds_sum {q : ℚ} (h0 : 0 ≤ q) (h1 : q ≤ 100) :
    0 ≤ round2 q ∧ round2 q ≤ 100 ∧ 0 ≤ round2 (100 - q) ∧
    round2 (100 - q) ≤ 100 ∧ round2 q + round2 (100 - q) = 100 :=
  ⟨round2_nonneg h0, round2_le_hundred h1, round2_nonneg (by linarith),
   round2_le_hundred (by linarith), round2_add_compl q⟩

/-!
## Claims about the quality-score derivation
-/

/-- The classifier rule exactly as the specification words it: base scores
(85, 15) for the positive class and (30, 70) otherwise, quality increased by
10 capped at 100 and contamination decreased by 10 floored at 0 when
confidence exceeds 0.7, the symmetric adjustment when confidence is below
0.5, and no change for confidence in [0.5, 0.7]. -/
def specClassifierScores (predicted_class : ℚ) (confidence : Option ℚ) : ℚ × ℚ :=
  let base := if predicted_class = 1 then ((85 : ℚ), (15 : ℚ)) else (30, 70)
  let conf := confidence.getD (1/2)
  if 7/10 < conf then (min (base.1 + 10) 100, max (base.2 - 10) 0)
  else if conf < 1/2 then (max (base.1 - 10) 0, min (base.2 + 10) 100)
  else base

/-- C3: for every classifier-model prediction the derived scores follow the
spec's rule table (bases (85,15)/(30,70), the ±10 confidence adjustment with
caps, no change for confidence in [0.5, 0.7]); in particular predicted class
1 with confidence 0.8 yields quality 95.0 and contamination 5.0. -/
theorem c3_classifier_rule (model_name : String) (pred : ℚ) (conf : Option ℚ) :
    deriveScores "classifier" model_name pred conf =
      specClassifierScores pred conf ∧
    deriveScores "classifier" model_name 1 (some (4/5)) = (95, 5) := by
  constructor
  · by_cases hp : pred = 1
    · by_cases h1 : (7:ℚ)/10 < conf.getD (1/2)
      · norm_num [deriveScores, specClassifierScores, hp, h1, round2, rne, Int.fract]
      · by_cases h2 : conf.getD (1/2) < 1/2
        · norm_num [deriveScores, specClassifierScores, hp, h1, h2, round2, rne,
            Int.fract]
        · norm_num [deriveScores, specClassifierScores, hp, h1, h2, round2, rne,
            Int.fract]
    · by_cases h1 : (7:ℚ)/10 < conf.getD (1/2)
      · norm_num [deriveScores, specClassifierScores, hp, h1, round2, rne, Int.fract]
      · by_cases h2 : conf.getD (1/2) < 1/2
        · norm_num [deriveScores, specClassifierScores, hp, h1, h2, round2, rne,
            Int.fract]
        · norm_num [deriveScores, specClassifierScores, hp, h1, h2, round2, rne,
            Int.fract]
  · norm_num [deriveScores, round2, rne, Int.fract]

/-- C10: on the classifier path the derived quality score and contamination
index sum to exactly 100 for every prediction and every confidence value —
the ±10 adjustment is symmetric and the clamps at 0/100 are never reached
from the bases (85,15) and (30,70). -/
theorem c10_classifier_sum (model_name : String) (pred : ℚ) (conf : Option ℚ) :
    (deriveScores "classifier" model_name pred conf).1 +
      (deriveScores "classifier" model_name pred conf).2 = 100 := by
  by_cases hp : pred = 1
  · by_cases h1 : (7:ℚ)/10 < conf.getD (1/2)
    · norm_num [deriveScores, hp, h1, round2, rne, Int.fract]
    · by_cases h2 : conf.getD (1/2) < 1/2
      · norm_num [deriveScores, hp, h1, h2, round2, rne, Int.fract]
      · norm_num [deriveScores, hp, h1, h2, round2, rne, Int.fract]
  · by_cases h1 : (7:ℚ)/10 < conf.getD (1/2)
    · norm_num [deriveScores, hp, h1, round2, rne, Int.fract]
    · by_cases h2 : conf.getD (1/2) < 1/2
      · norm_num [deriveScores, hp, h1, h2, round2, rne, Int.fract]
      · norm_num [deriveScores, hp, h1, h2, round2, rne, Int.fract]

/-- C4: every regressor-derived score pair — the treatment-efficiency
(`dataset3`) branch, the biological-oxygen-demand (`dataset4`) branch, the
generic branch, and the service ensemble (which always uses the generic
regressor formula) — has quality score and contamination index in [0, 100]
summing to exactly 100.00. -/
theorem c4_regressor_bounds_sum (model_type model_name : String) (pred : ℚ)
    (conf : Option ℚ) (mgr : ModelManager) (features : List (String × ℚ))
    (h : model_type ≠ "classifier") :
    (0 ≤ (deriveScores model_type model_name pred conf).1 ∧
     (deriveScores model_type model_name pred conf).1 ≤ 100 ∧
     0 ≤ (deriveScores model_type model_name pred conf).2 ∧
     (deriveScores model_type model_name pred conf).2 ≤ 100 ∧
     (deriveScores model_type model_name pred conf).1 +
       (deriveScores model_type model_name pred conf).2 = 100) ∧
    (∀ r, MLService.ensemble_predict mgr features = .ok r →
      0 ≤ r.quality_score ∧ r.quality_score ≤ 100 ∧
      0 ≤ r.contamination_index ∧ r.contamination_index ≤ 100 ∧
      r.quality_score + r.contamination_index = 100) := by
  constructor
  · simp only [deriveScores, if_neg h]
    by_cases h3 : strContainsLower model_name "dataset3" = true
    · simp only [h3, if_true]
      exact scores_bounds_sum (le_max_left 0 _)
        (max_le (by norm_num) (min_le_left 100 _))
    · simp only [h3, if_false, Bool.false_eq_true]
      by_cases h4 : strContainsLower model_name "dataset4" = true
      · simp only [h4, if_true]
        by_cases b1 : pred < 200
        · simp only [b1, if_true]
          exact scores_bounds_sum (by norm_num) (by norm_num)
        · simp only [b1, if_false]
          by_cases b2 : pred < 400
          · simp only [b2, if_true]
            exact scores_bounds_sum (by norm_num) (by norm_num)
          · simp only [b2, if_false]
            by_cases b3 : pred < 600
            · simp only [b3, if_true]
              exact scores_bounds_sum (by norm_num) (by norm_num)
            · simp only [b3, if_false]
              exact scores_bounds_sum (by norm_num) (by norm_num)
      · simp only [h4, if_false, Bool.false_eq_true]
        exact scores_bounds_sum (le_max_left 0 _)
          (max_le (by norm_num) (min_le_left 100 _))
  · intro r hr
    unfold MLService.ensemble_predict at hr
    cases hbase : ModelManager.ensemble_predict mgr features with
    | error e => rw [hbase] at hr; exact absurd hr (by simp)
    | ok b =>
      rw [hbase] at hr
      have hr' := (Except.ok.injEq _ _).mp hr
      rw [← hr']
      exact scores_bounds_sum (le_max_left 0 _)
        (max_le (by norm_num) (min_le_left 100 _))

/-- C6 counterexample: at contamination_index = 0.001 the returned settling
time is the rounded value 60, not the claimed raw clamped value 60.0012. -/
theorem c6_counterexample :
    (PrimaryTreatmentOptimizer.optimize 50 (1/1000) 1000).settling_time_min = 60 ∧
    max 30 (min (60 * (1 + 2 * ((1/1000) / 100))) 180) ≠ (60 : ℚ) := by
  constructor
  · norm_num [PrimaryTreatmentOptimizer.optimize, round2, rne, Int.fract]
  · norm_num

/-- C6 (amended): the primary optimizer's settling time equals
clamp(60 × (1 + 2 × contamination / 100), 30, 180) rounded to two decimal
places (round-half-to-even); in particular contamination_index = 1000 yields
exactly 180 and contamination_index = 0 yields exactly 60. -/
theorem c6_settling_time (q c fr : ℚ) :
    (PrimaryTreatmentOptimizer.optimize q c fr).settling_time_min =
      round2 (max 30 (min (60 * (1 + 2 * (c / 100))) 180)) ∧
    (PrimaryTreatmentOptimizer.optimize q 1000 fr).settling_time_min = 180 ∧
    (PrimaryTreatmentOptimizer.optimize q 0 fr).settling_time_min = 60 := by
  refine ⟨?_, ?_, ?_⟩
  · have harg : 60 * (1 + c / 100 * 2) = 60 * (1 + 2 * (c / 100)) := by ring
    simp only [PrimaryTreatmentOptimizer.optimize, harg]
  · simp only [PrimaryTreatmentOptimizer.optimize]
    norm_num [round2, rne, Int.fract]
  · simp only [PrimaryTreatmentOptimizer.optimize]
    norm_num [round2, rne, Int.fract]

/-- C7 counterexample: a regressor key containing BOTH identifying
substrings, such as "dataset3_dataset4", contains the BOD substring yet is
routed to the treatment-efficiency branch: a raw prediction of 350 yields
(100, 0), not the banded (70, 30). -/
theorem c7_counterexample :
    strContainsLower "dataset3_dataset4" "dataset4" = true ∧
    deriveScores "regressor" "dataset3_dataset4" 350 none = (100, 0) ∧
    deriveScores "regressor" "dataset3_dataset4" 350 none ≠ (70, 30) := by
  have hc3 : strContainsLower "dataset3_dataset4" "dataset3" = true := rfl
  have hv : deriveScores "regressor" "dataset3_dataset4" 350 none = (100, 0) := by
    simp only [deriveScores, hc3, String.reduceEq, if_false, if_true,
      Bool.false_eq_true, ite_true, ite_false]
    norm_num [round2, rne, Int.fract]
  refine ⟨rfl, hv, ?_⟩
  rw [hv]
  norm_num [Prod.ext_iff]

/-- C7 (amended): for a regressor whose dataset key contains the BOD
substring "dataset4" (case-insensitively) AND does not contain the
treatment-efficiency substring "dataset3", the quality score is banded by
the raw prediction (<200 → 90, <400 → 70, <600 → 50, else 30) with
contamination = 100 − quality. -/
theorem c7_bod_banding (model_name : String) (pred : ℚ) (conf : Option ℚ)
    (h4 : strContainsLower model_name "dataset4" = true)
    (h3 : strContainsLower model_name "dataset3" = false) :
    deriveScores "regressor" model_name pred conf =
      (if pred < 200 then ((90 : ℚ), (10 : ℚ))
       else if pred < 400 then (70, 30)
       else if pred < 600 then (50, 50)
       else (30, 70)) := by
  simp only [deriveScores, h3, h4, if_true, if_false, Bool.false_eq_true,
    String.reduceEq]
  by_cases b1 : pred < 200
  · norm_num [b1, round2, rne, Int.fract]
  · by_cases b2 : pred < 400
    · norm_num [b1, b2, round2, rne, Int.fract]
    · by_cases b3 : pred < 600
      · norm_num [b1, b2, b3, round2, rne, Int.fract]
      · norm_num [b1, b2, b3, round2, rne, Int.fract]

/-- C7 witness: a BOD-dataset regressor predicting 350 yields quality 70.0
and contamination 30.0. -/
theorem c7_bod_banding_witness :
    deriveScores "regressor" "wwtp_dataset4" 350 none = (70, 30) := by
  rw [c7_bod_banding "wwtp_dataset4" 350 none rfl rfl]
  norm_num

/-!
## Claims about the treatment optimizers
-/

/-- C5: the tertiary optimizer triggers reverse osmosis exactly when the
target tier is "drinking", or contamination exceeds 70, or quality is below
50; and `optimize_all(40, 75, {}, "drinking")` yields tertiary
`ro_trigger = true` and a final reuse of type "environmental" with the
"requires further treatment" description. -/
theorem c5_ro_trigger_and_scenario :
    (∀ (q c : ℚ) (tq : String),
      ((TertiaryTreatmentOptimizer.optimize q c tq).ro_trigger = true ↔
        (tq = "drinking" ∨ 70 < c ∨ q < 50))) ∧
    (TreatmentOptimizerEngine.optimize_all 40 75 [] "drinking").tertiary_treatment.ro_trigger
      = true ∧
    (TreatmentOptimizerEngine.optimize_all 40 75 [] "drinking").final_reuse.reuse_type
      = "environmental" ∧
    (TreatmentOptimizerEngine.optimize_all 40 75 [] "drinking").final_reuse.description
      = "Requires further treatment before reuse" := by
  refine ⟨?_, ?_, ?_, ?_⟩
  · intro q c tq
    simp [TertiaryTreatmentOptimizer.optimize, or_assoc]
  · simp [TreatmentOptimizerEngine.optimize_all, TertiaryTreatmentOptimizer.optimize]
  · simp [TreatmentOptimizerEngine.optimize_all, FinalReuseEngine.determine_reuse,
      TertiaryTreatmentOptimizer.optimize]
    norm_num
  · simp [TreatmentOptimizerEngine.optimize_all, FinalReuseEngine.determine_reuse,
      TertiaryTreatmentOptimizer.optimize]
    norm_num

/-!
## Claims about model selection
-/

lemma le_pickBest_acc (acc : String × ℚ) (xs : List (String × ℚ)) :
    acc.2 ≤ (pickBest acc xs).2 := by
  induction xs generalizing acc with
  | nil => exact le_refl _
  | cons x t ih =>
    by_cases hc : acc.2 < x.2
    · rw [pickBest, if_pos hc]
      exact le_of_lt (lt_of_lt_of_le hc (ih x))
    · rw [pickBest, if_neg hc]
      exact ih acc

lemma pickBest_eq_or_mem (acc : String × ℚ) (xs : List (String × ℚ)) :
    pickBest acc xs = acc ∨ pickBest acc xs ∈ xs := by
  induction xs generalizing acc with
  | nil => exact Or.inl rfl
  | cons x t ih =>
    by_cases hc : acc.2 < x.2
    · rw [pickBest, if_pos hc]
      rcases ih x with h | h
      · exact Or.inr (by rw [h]; exact List.mem_cons_self x t)
      · exact Or.inr (List.mem_cons_of_mem x h)
    · rw [pickBest, if_neg hc]
      rcases ih acc with h | h
      · exact Or.inl h
      · exact Or.inr (List.mem_cons_of_mem x h)

lemma mem_le_pickBest (acc : String × ℚ) (xs : List (String × ℚ)) :
    ∀ y ∈ xs, y.2 ≤ (pickBest acc xs).2 := by
  induction xs generalizing acc with
  | nil => intro y hy; cases hy
  | cons x t ih =>
    intro y hy
    rcases List.mem_cons.mp hy with rfl | hy'
    · by_cases hc : acc.2 < y.2
      · rw [pickBest, if_pos hc]
        exact le_pickBest_acc y t
      · rw [pickBest, if_neg hc]
        exact le_trans (le_of_not_lt hc) (le_pickBest_acc acc t)
    · by_cases hc : acc.2 < x.2
      · rw [pickBest, if_pos hc]
        exact ih x y hy'
      · rw [pickBest, if_neg hc]
        exact ih acc y hy'

/-- C1: `model_selector` returns `None`, or the dataset key of a loaded model
with a stored feature list whose overlap ratio is strictly greater than 0.5
and at least as large as the ratio of every other scored model. -/
theorem c1_model_selector_sound (mgr : ModelManager)
    (features : List (String × ℚ)) :
    ModelManager.model_selector mgr features = none ∨
    ∃ name p cols,
      ModelManager.model_selector mgr features = some name ∧
      (name, p) ∈ mgr.models ∧
      p.feature_columns = some cols ∧
      1/2 < overlapFrac features cols ∧
      (∀ np ∈ mgr.models, ∀ cols2, np.2.feature_columns = some cols2 →
        overlapFrac features cols2 ≤ overlapFrac features cols) := by
  unfold ModelManager.model_selector
  cases hsc : mgr.models.filterMap
      (fun np => np.2.feature_columns.map
        (fun cols => (np.1, overlapFrac features cols))) with
  | nil => exact Or.inl rfl
  | cons s rest =>
    by_cases hb : 1/2 < (pickBest s rest).2
    · refine Or.inr ?_
      have hmem : pickBest s rest ∈ s :: rest := by
        rcases pickBest_eq_or_mem s rest with h | h
        · rw [h]; exact List.mem_cons_self s rest
        · exact List.mem_cons_of_mem s h
      rw [← hsc] at hmem
      rcases List.mem_filterMap.mp hmem with ⟨np, hnp, hmap⟩
      rcases Option.map_eq_some'.mp hmap with ⟨cols, hcols, hpair⟩
      refine ⟨(pickBest s rest).1, np.2, cols, ?_, ?_, hcols, ?_, ?_⟩
      · simp only [if_pos hb]
      · have h1 : np.1 = (pickBest s rest).1 := by rw [← hpair]
        rw [← h1]
        exact hnp
      · have h2 : overlapFrac features cols = (pickBest s rest).2 := by
          rw [← hpair]
        rw [h2]; exact hb
      · intro np' hnp' cols2 hcols2
        have hin : (np'.1, overlapFrac features cols2) ∈ s :: rest := by
          rw [← hsc]
          exact List.mem_filterMap.mpr
            ⟨np', hnp', by rw [hcols2]; rfl⟩
        have hle : (np'.1, overlapFrac features cols2).2 ≤ (pickBest s rest).2 := by
          rcases List.mem_cons.mp hin with he | hm
          · rw [he]; exact le_pickBest_acc s rest
          · exact mem_le_pickBest s rest _ hm
        have h2 : overlapFrac features cols = (pickBest s rest).2 := by
          rw [← hpair]
        rw [h2]
        exact hle
    · exact Or.inl (by simp only [if_neg hb])

/-!
## Claims about prediction dispatch
-/

lemma lookup_eq_of_perm {l1 l2 : List (String × ℚ)} (h : l1.Perm l2) :
    (l1.map Prod.fst).Nodup → ∀ k, List.lookup k l1 = List.lookup k l2 := by
  induction h with
  | nil => intro _ k; rfl
  | cons x h ih =>
    intro hnd k
    rw [List.map_cons] at hnd
    have hnd' := (List.nodup_cons.mp hnd).2
    simp only [List.lookup]
    cases hk : (k == x.1) with
    | true => rfl
    | false => exact ih hnd' k
  | swap x y l =>
    intro hnd k
    rw [List.map_cons, List.map_cons] at hnd
    have h1 := (List.nodup_cons.mp hnd).1
    have hxy : ¬ (y.1 = x.1) := by
      intro he
      exact h1 (by rw [he]; exact List.mem_cons_self x.1 _)
    simp only [List.lookup]
    cases hky : (k == y.1) with
    | true =>
      have hkx : (k == x.1) = false := by
        rw [beq_iff_eq] at hky
        rw [beq_eq_false_iff_ne, hky]
        exact hxy
      rw [hkx]
    | false =>
      cases hkx : (k == x.1) with
      | true => rfl
      | false => rfl
  | trans h1 h2 ih1 ih2 =>
    intro hnd k
    have hnd2 : _ := ((h1.map Prod.fst).nodup_iff).mp hnd
    exact (ih1 hnd k).trans (ih2 hnd2 k)

lemma ModelManager.predict_eq_notFound (mgr : ModelManager) (name : String)
    (features : List (String × ℚ))
    (hm : List.lookup name mgr.models = none) :
    ModelManager.predict mgr name features = .error .modelNotFound := by
  simp only [ModelManager.predict, hm]

lemma ModelManager.predict_eq_noCols (mgr : ModelManager) (name : String)
    (features : List (String × ℚ)) (p : UnifiedMLPipeline)
    (hm : List.lookup name mgr.models = some p)
    (hc : p.feature_columns = none) :
    ModelManager.predict mgr name features = .error .noFeatureColumns := by
  simp only [ModelManager.predict, hm, hc]

/-- Unfolding of `ModelManager.predict` for a loaded model with a stored
feature list. -/
lemma ModelManager.predict_eq (mgr : ModelManager) (name : String)
    (features : List (String × ℚ)) (p : UnifiedMLPipeline) (cols : List String)
    (hm : List.lookup name mgr.models = some p)
    (hc : p.feature_columns = some cols) :
    ModelManager.predict mgr name features =
      (match p.run (buildRow cols features) with
       | .error e => .error (.pipelineError e)
       | .ok pred =>
         if p.model_type = "classifier" then
           match p.run_proba (buildRow cols features) with
           | .ok probs =>
             .ok { prediction := pred, model_name := name,
                   features_used := cols, probabilities := some probs,
                   confidence := probs.max? }
           | .error _ =>
             .ok { prediction := pred, model_name := name,
                   features_used := cols, probabilities := none,
                   confidence := none }
         else
           .ok { prediction := pred, model_name := name,
                 features_used := cols, probabilities := none,
                 confidence := none }) := by
  simp only [ModelManager.predict, hm, hc]

/-- C9: `predict` depends on the request mapping only through name lookup:
two feature mappings holding the same pairs in different key orders produce
identical results. -/
theorem c9_key_order_invariance (mgr : ModelManager) (name : String)
    (f1 f2 : List (String × ℚ)) (hp : f1.Perm f2)
    (hnd : (f1.map Prod.fst).Nodup) :
    ModelManager.predict mgr name f1 = ModelManager.predict mgr name f2 := by
  have hrow : ∀ cols : List String, buildRow cols f1 = buildRow cols f2 := by
    intro cols
    unfold buildRow
    refine List.map_congr_left ?_
    intro c _
    rw [lookup_eq_of_perm hp hnd c]
  cases hl : List.lookup name mgr.models with
  | none =>
    rw [ModelManager.predict_eq_notFound mgr name f1 hl,
      ModelManager.predict_eq_notFound mgr name f2 hl]
  | some p =>
    cases hcc : p.feature_columns with
    | none =>
      rw [ModelManager.predict_eq_noCols mgr name f1 p hl hcc,
        ModelManager.predict_eq_noCols mgr name f2 p hl hcc]
    | some cols =>
      rw [ModelManager.predict_eq mgr name f1 p cols hl hcc,
        ModelManager.predict_eq mgr name f2 p cols hl hcc, hrow cols]

/-- Concrete registry used by the witnesses: one regressor artifact with
stored feature list ["a", "b"] whose fitted chain sums its input row. -/
def pW : UnifiedMLPipeline :=
  { model_type := "regressor", feature_columns := some ["a", "b"],
    run := fun row => .ok row.sum, run_proba := fun _ => .error 0 }

def mgrW : ModelManager := { models := [("m", pW)] }

/-- C9 witness: the spec's example, `{"b":2,"a":1}` versus `{"a":1,"b":2}`
against an artifact with features `["a","b"]`. -/
theorem c9_key_order_invariance_witness :
    ModelManager.predict mgrW "m" [("b", 2), ("a", 1)] =
      ModelManager.predict mgrW "m" [("a", 1), ("b", 2)] :=
  c9_key_order_invariance mgrW "m" _ _
    (List.Perm.swap ("a", 1) ("b", 2) []) (by simp)

/-- C8: for a loaded model with a stored feature list, `predict` feeds the
fitted chain exactly the row built from that list with absent request
features defaulted to 0.0; the substitution itself never fails — `predict`
fails only when the opaque chain does, and succeeds with that row's
prediction otherwise. -/
theorem c8_default_fill (mgr : ModelManager) (name : String)
    (features : List (String × ℚ)) (p : UnifiedMLPipeline) (cols : List String)
    (hm : List.lookup name mgr.models = some p)
    (hc : p.feature_columns = some cols) :
    (∀ v, p.run (cols.map (fun c => (List.lookup c features).getD 0)) = .ok v →
       ∃ r, ModelManager.predict mgr name features = .ok r ∧
         r.prediction = v ∧ r.features_used = cols) ∧
    (∀ e, ModelManager.predict mgr name features = .error e →
       ∃ k, e = .pipelineError k ∧
         p.run (cols.map (fun c => (List.lookup c features).getD 0))
           = .error k) := by
  have hpred := ModelManager.predict_eq mgr name features p cols hm hc
  have hbr : buildRow cols features
      = cols.map (fun c => (List.lookup c features).getD 0) := rfl
  rw [hbr] at hpred
  constructor
  · intro v hv
    rw [hpred]
    simp only [hv]
    by_cases hcl : p.model_type = "classifier"
    · simp only [if_pos hcl]
      cases hpr : p.run_proba (cols.map (fun c => (List.lookup c features).getD 0)) with
      | ok probs => simp only [hpr]; exact ⟨_, rfl, rfl, rfl⟩
      | error k => simp only [hpr]; exact ⟨_, rfl, rfl, rfl⟩
    · simp only [if_neg hcl]
      exact ⟨_, rfl, rfl, rfl⟩
  · intro e he
    rw [hpred] at he
    cases hrun : p.run (cols.map (fun c => (List.lookup c features).getD 0)) with
    | ok v =>
      simp only [hrun] at he
      by_cases hcl : p.model_type = "classifier"
      · simp only [if_pos hcl] at he
        cases hpr : p.run_proba (cols.map (fun c => (List.lookup c features).getD 0)) with
        | ok probs => simp only [hpr] at he; cases he
        | error k => simp only [hpr] at he; cases he
      · simp only [if_neg hcl] at he
        cases he
    | error k =>
      simp only [hrun] at he
      have hek : MMError.pipelineError k = e := (Except.error.injEq _ _).mp he
      exact ⟨k, hek.symm, rfl⟩

/-- C8 witness: against `mgrW` (features ["a", "b"]), a request supplying
only `a = 3` is completed with `b = 0.0` and predicts 3 + 0 = 3. -/
theorem c8_default_fill_witness :
    ∃ r, ModelManager.predict mgrW "m" [("a", 3)] = .ok r ∧
      r.prediction = 3 ∧ r.features_used = ["a", "b"] := by
  have hrow : (["a", "b"].map
      (fun c => (List.lookup c [("a", (3:ℚ))]).getD 0)) = [3, 0] := rfl
  have hrun : pW.run (["a", "b"].map
      (fun c => (List.lookup c [("a", (3:ℚ))]).getD 0)) = .ok 3 := by
    rw [hrow]
    show Except.ok ([(3:ℚ), 0].sum) = _
    norm_num
  exact (c8_default_fill mgrW "m" [("a", 3)] pW ["a", "b"] rfl rfl).1 3 hrun

/-!
## Claim about the ensemble error behaviour
-/

/-- Two-artifact registry: `good` always predicts 120, `bad` always raises
(error code 7). -/
def pGoodC2 : UnifiedMLPipeline :=
  { model_type := "regressor", feature_columns := some ["a"],
    run := fun _ => .ok 120, run_proba := fun _ => .error 0 }

def pBadC2 : UnifiedMLPipeline :=
  { model_type := "regressor", feature_columns := some ["a"],
    run := fun _ => .error 7, run_proba := fun _ => .error 0 }

def mgrC2 : ModelManager := { models := [("good", pGoodC2), ("bad", pBadC2)] }

/-- C2 failing input: one artifact succeeds and one raises, yet
`ensemble_predict` does not return — the `individual_predictions` dict
comprehension in its `return` statement re-runs `predict` on the raising
artifact outside any try/except, so the underlying error (not
`NoModelsAvailable`) propagates. -/
theorem c2_ensemble_mixed_failure :
    ModelManager.predict mgrC2 "good" [("a", 1)] =
      .ok { prediction := 120, model_name := "good", features_used := ["a"],
            probabilities := none, confidence := none } ∧
    ModelManager.ensemble_predict mgrC2 [("a", 1)] =
      .error (.pipelineError 7) ∧
    MMError.pipelineError 7 ≠ MMError.noModelsAvailable := by
  refine ⟨rfl, rfl, by simp⟩

/-- C4 witness: the generic regressor branch at raw prediction 123 and a
successful ensemble over `mgrW` both satisfy the bounds-and-sum invariant. -/
theorem c4_regressor_bounds_sum_witness :
    (deriveScores "regressor" "x" 123 none).1 +
      (deriveScores "regressor" "x" 123 none).2 = 100 ∧
    ∃ r, MLService.ensemble_predict mgrW [("a", 3)] = .ok r ∧
      r.quality_score + r.contamination_index = 100 := by
  have hne : ("regressor" : String) ≠ "classifier" := by simp
  have hb : buildRow ["a", "b"] [("a", (3:ℚ))] = [3, 0] := rfl
  have hsum3 : [(3:ℚ), 0].sum = 3 := by norm_num
  have hr3 : pW.run [3, 0] = .ok 3 := by
    show Except.ok ([(3:ℚ), 0].sum) = _
    rw [hsum3]
  have hpw : pW.run (buildRow ["a", "b"] [("a", (3:ℚ))]) = .ok 3 := by
    rw [hb]; exact hr3
  have hpred : ModelManager.predict mgrW "m" [("a", 3)] =
      .ok { prediction := 3, model_name := "m", features_used := ["a", "b"],
            probabilities := none, confidence := none } := by
    rw [ModelManager.predict_eq mgrW "m" [("a", 3)] pW ["a", "b"] rfl rfl]
    simp only [hpw]
    rw [if_neg (by simp [pW] : ¬(pW.model_type = "classifier"))]
  have hsr : successResults mgrW [("a", 3)] =
      [{ prediction := 3, model_name := "m", features_used := ["a", "b"],
         probabilities := none, confidence := none }] := by
    unfold successResults
    show (List.map (fun np => ModelManager.predict mgrW np.1 [("a", 3)])
      [("m", pW)]).filterMap Except.toOption = _
    rw [List.map_cons, List.map_nil]
    show List.filterMap Except.toOption
      [ModelManager.predict mgrW "m" [("a", 3)]] = _
    rw [hpred]
    rfl
  have hip : individualPredictions mgrW [("a", 3)] mgrW.models =
      .ok [("m", 3)] := by
    show individualPredictions mgrW [("a", 3)] [("m", pW)] = _
    rw [individualPredictions]
    simp only [hpred]
    rfl
  have hbase : ModelManager.ensemble_predict mgrW [("a", 3)] =
      .ok { prediction := 3, individual_predictions := [("m", 3)],
            weights := [1] } := by
    unfold ModelManager.ensemble_predict
    rw [hsr, hip]
    norm_num
  have hserve : MLService.ensemble_predict mgrW [("a", 3)] =
      .ok { prediction := 3, individual_predictions := [("m", 3)],
            weights := [1], quality_score := 3/2,
            contamination_index := 197/2 } := by
    have hq : max (0:ℚ) (min 100 (3 / 200 * 100)) = 3/2 := by norm_num
    have hr1 : round2 (3/2) = 3/2 := by norm_num [round2, rne, Int.fract]
    have hr2 : round2 (100 - 3/2) = 197/2 := by norm_num [round2, rne, Int.fract]
    unfold MLService.ensemble_predict
    simp only [hbase]
    rw [hq, hr1, hr2]
  constructor
  · exact (c4_regressor_bounds_sum "regressor" "x" 123 none mgrW [("a", 3)]
      hne).1.2.2.2.2
  · refine ⟨_, hserve, ?_⟩
    exact ((c4_regressor_bounds_sum "regressor" "x" 123 none mgrW [("a", 3)]
      hne).2 _ hserve).2.2.2.2
